import Mathlib

/-!
Verification of the pydrive-client wrapper (`src/main.py`).

The file shallowly embeds the wrapper's three operations — `upload`,
`list_files` and `download_file` — together with the command-line dispatch of
`main`.  Remote state is a list of drive entries; local state is a list of
path/content pairs.  Python exceptions (an out-of-range `parents[0]` access,
a failing metadata fetch) are modelled by `Option`: `none` is an uncaught
exception aborting the operation.  The recursive download carries a fuel
argument: with enough fuel the model computes exactly what the Python
recursion computes, and fuel exhaustion only ever yields `none`, never a
wrong answer.
-/

/-- The reserved MIME type marking a remote entry as a folder
(`FOLDER_MIME_TYPE` in `main.py`). -/
def FOLDER_MIME_TYPE : String := "application/vnd.google-apps.folder"

/-- A parent reference carried by a remote entry: an identifier plus the
service's "is root" flag (`parents[i]['id']`, `parents[i]['isRoot']`). -/
structure ParentRef where
  id : String
  isRoot : Bool
deriving Repr, DecidableEq

/-- A remote drive entry as the wrapper sees it after `FetchMetadata`:
identifier, display title, MIME type, ordered parent references, trashed
flag, and the stored bytes (what `GetContentFile` would write). -/
structure Entry where
  id : String
  title : String
  mimeType : String
  parents : List ParentRef
  trashed : Bool
  content : List Nat
deriving Repr, DecidableEq

/-- The remote drive: the entries known to the service. -/
structure Drive where
  entries : List Entry
deriving Repr, DecidableEq

/-- Fetching metadata for an identifier (`CreateFile({'id': i})` followed by
`FetchMetadata()`): `none` models the `ApiRequestError` raised for an unknown
identifier. -/
def Drive.fetch (d : Drive) (i : String) : Option Entry :=
  d.entries.find? (fun e => e.id == i)

/-- The server-side query issued by `list_files`:
`'{parent_folder}' in parents and trashed=false`.  An entry matches when any
of its parent references carries the given identifier. -/
def queryChildren (d : Drive) (parent_folder : String) : List Entry :=
  d.entries.filter (fun e =>
    e.parents.any (fun pr => pr.id == parent_folder) && !e.trashed)

/-- The stdout line printed for one listed entry. -/
def listLine (f : Entry) : String :=
  "Title: " ++ f.title ++ "\tid: " ++ f.id

/-- The printing loop of `list_files` (`main.py` lines 55–59): skip
folder-typed entries when `skip_directory` is set, print a title/id line for
the rest unless `skip_print` is set. -/
def listPrints (skip_print skip_directory : Bool) : List Entry → List String
  | [] => []
  | f :: rest =>
    if skip_directory && (f.mimeType == FOLDER_MIME_TYPE) then
      listPrints skip_print skip_directory rest
    else if !skip_print then
      listLine f :: listPrints skip_print skip_directory rest
    else
      listPrints skip_print skip_directory rest

/-- The Lister (`list_files` in `main.py`): one children query, a printing
loop, and the full query result returned unchanged.  The result is the pair
(returned list, printed lines). -/
def list_files (d : Drive) (parent_folder : String)
    (skip_print skip_directory : Bool) : List Entry × List String :=
  let file_list := queryChildren d parent_folder
  (file_list, listPrints skip_print skip_directory file_list)

/-- The local filesystem visible to `upload`: existing files with their
bytes. -/
structure LocalFS where
  files : List (String × List Nat)
deriving Repr, DecidableEq

/-- Modelled `os.path.exists`. -/
def LocalFS.pathExists (fs : LocalFS) (p : String) : Bool :=
  fs.files.any (fun f => f.fst == p)

/-- The bytes of a local file (what `SetContentFile` attaches). -/
def LocalFS.read (fs : LocalFS) (p : String) : List Nat :=
  ((fs.files.find? (fun f => f.fst == p)).map (fun f => f.snd)).getD []

/-- A parent link as placed into the upload request body
(`{"kind": "drive#fileLink", "id": parent_folder}`). -/
structure ParentLink where
  kind : String
  id : String
deriving Repr, DecidableEq

/-- Python truthiness of the optional string arguments (`if parent_folder:`,
`if args.list_files:`): `None` and the empty string are falsy. -/
def truthy : Option String → Bool
  | none => false
  | some s => s != ""

/-- Splitting a character list at every slash, keeping empty pieces: the
semantics of Python's `str.split('/')`. -/
def splitSlashAux : List Char → List Char → List (List Char)
  | [], acc => [acc.reverse]
  | c :: rest, acc =>
    if c = '/' then acc.reverse :: splitSlashAux rest []
    else splitSlashAux rest (c :: acc)

/-- Python's `filename.split('/')`. -/
def pySplitSlash (s : String) : List String :=
  (splitSlashAux s.data []).map (fun l => String.mk l)

/-- The remote file record built by `upload` (`main.py` lines 31–33): the
title is `filename.split('/')[-1]`, and a single `drive#fileLink` parent link
is attached when `parent_folder` is truthy. -/
def uploadFileParams (filename : String) (parent_folder : Option String) :
    String × List ParentLink :=
  let title := (pySplitSlash filename).getLastD ""
  let parents :=
    if truthy parent_folder then
      [ParentLink.mk "drive#fileLink" (parent_folder.getD "")]
    else
      []
  (title, parents)

/-- Modelled from the spec: the remote service's handling of an upload (the
external library's `Upload` call, outside this repository).  The service
stores a fresh entry under a server-assigned identifier with the requested
title and content, a non-folder MIME type, not trashed; the requested parent
links become parent references whose "is root" flag records whether the link
targets the root folder, and a record with no parent link is filed directly
under the root (parent reference flagged is-root). -/
def serverUpload (d : Drive) (rootId freshId title : String)
    (links : List ParentLink) (content : List Nat) : Drive :=
  let refs :=
    match links with
    | [] => [ParentRef.mk rootId true]
    | ls => ls.map (fun l => ParentRef.mk l.id (l.id == rootId))
  Drive.mk (Entry.mk freshId title "application/octet-stream" refs false content :: d.entries)

/-- Modelled from the spec: the public content URL reported after the upload
(the server-assigned `webContentLink`). -/
def webContentLink (i : String) : String :=
  "https://drive.google.com/uc?id=" ++ i

/-- Result of one run of the Uploader: the remote drive afterwards, the lines
printed, and the remote calls performed (in order). -/
structure UpOut where
  drive : Drive
  prints : List String
  calls : List String
deriving Repr, DecidableEq

/-- The Uploader (`upload` in `main.py`): an existence check that prints a
message and returns without touching the remote on failure; otherwise the
record construction of `uploadFileParams`, the upload itself, a metadata
re-fetch, an anyone/reader permission insertion, and two result lines.
`rootId` and `freshId` parametrise the modelled service: the root folder's
identifier and the server-assigned identifier of the new entry. -/
def upload (fs : LocalFS) (d : Drive) (rootId freshId : String)
    (filename : String) (parent_folder : Option String) : UpOut :=
  if !fs.pathExists filename then
    UpOut.mk d ["Specified filename " ++ filename ++ " does not exist!"] []
  else
    let ps := uploadFileParams filename parent_folder
    let d2 := serverUpload d rootId freshId ps.fst ps.snd (fs.read filename)
    UpOut.mk d2
      ["Get it with: " ++ freshId, "URL: " ++ webContentLink freshId]
      ["Upload", "FetchMetadata", "InsertPermission"]

/-- Result of one run of the Downloader: the lines printed and the local
files written, each as path/content, in order. -/
structure DlOut where
  prints : List String
  files : List (String × List Nat)
deriving Repr, DecidableEq

/-- The ancestor walk of `download_file` (`main.py` lines 86–89): while the
current folder's first parent reference is not flagged is-root, move to that
parent and prepend its title with `os.path.join`.  `none` models the
`IndexError` on an empty parent list, a failing fetch, or fuel exhaustion. -/
def walkUp (d : Drive) : Nat → Entry → String → Option String
  | 0, _, _ => none
  | fuel + 1, folder, folder_name =>
    match folder.parents.head? with
    | none => none
    | some pr =>
      if pr.isRoot then some folder_name
      else
        match d.fetch pr.id with
        | none => none
        | some f2 => walkUp d fuel f2 (f2.title ++ "/" ++ folder_name)

/-- The per-file tail of the download loop (`main.py` lines 82–95): read the
title, fetch the first parent, walk the ancestor chain, join the folder path
with the title, write the content there, and print the two progress lines. -/
def dlSingle (d : Drive) (fuel : Nat) (e : Entry) : Option DlOut :=
  match e.parents.head? with
  | none => none
  | some pr =>
    match d.fetch pr.id with
    | none => none
    | some folder =>
      match walkUp d fuel folder folder.title with
      | none => none
      | some folder_name =>
        let filename := folder_name ++ "/" ++ e.title
        some (DlOut.mk
          ["Downloading " ++ filename ++ " -> " ++ filename,
           "Downloaded " ++ filename ++ "!"]
          [(filename, e.content)])

/-- Concatenation of the effects of two consecutive loop iterations. -/
def dlCombine (o1 o2 : DlOut) : DlOut :=
  DlOut.mk (o1.prints ++ o2.prints) (o1.files ++ o2.files)

/-- The `for dl_file in files_to_dl` loop of `download_file`, generic in the
body applied to each entry; an exception in any iteration aborts the whole
run. -/
def dlLoopG (step : Entry → Option DlOut) : List Entry → Option DlOut
  | [] => some (DlOut.mk [] [])
  | e :: rest =>
    match step e with
    | none => none
    | some o1 =>
      match dlLoopG step rest with
      | none => none
      | some o2 => some (dlCombine o1 o2)

/-- The Downloader (`download_file` in `main.py`): fetch the target; if it is
a folder, print the recursion notice and loop over the children obtained from
`list_files` with printing suppressed and folder-skipping disabled, otherwise
loop over the singleton.  Each iteration re-fetches its entry, recurses on
folders and runs `dlSingle` on files.  The fuel argument only bounds the
recursion depth of the model. -/
def download_file (d : Drive) : Nat → String → Option DlOut
  | 0, _ => none
  | fuel + 1, file_id =>
    match d.fetch file_id with
    | none => none
    | some file =>
      if file.mimeType == FOLDER_MIME_TYPE then
        match dlLoopG (fun e =>
            match d.fetch e.id with
            | none => none
            | some e2 =>
              if e2.mimeType == FOLDER_MIME_TYPE then download_file d fuel e2.id
              else dlSingle d fuel e2)
            (list_files d file_id true false).fst with
        | none => none
        | some o =>
          some (DlOut.mk
            ((file.title ++ " is a folder, downloading recursively") :: o.prints)
            o.files)
      else
        dlLoopG (fun e =>
            match d.fetch e.id with
            | none => none
            | some e2 =>
              if e2.mimeType == FOLDER_MIME_TYPE then download_file d fuel e2.id
              else dlSingle d fuel e2)
          [file]

/-- The body of one download-loop iteration (`main.py` lines 78–95), as a
named function: re-fetch the entry, recurse on folders, `dlSingle` on
files.  `download_file` at positive fuel runs `dlLoopG (dlStep d fuel)`. -/
def dlStep (d : Drive) (fuel : Nat) : Entry → Option DlOut := fun e =>
  match d.fetch e.id with
  | none => none
  | some e2 =>
    if e2.mimeType == FOLDER_MIME_TYPE then download_file d fuel e2.id
    else dlSingle d fuel e2

/-- The command-line arguments of `main` after parsing: each of the four
flags is `none` when absent. -/
structure Args where
  list_files : Option String
  upload_file : Option String
  parent_folder : Option String
  download_file : Option String
deriving Repr, DecidableEq

/-- The operation selected by `main`'s `if/elif/else` chain. -/
inductive Op where
  | opList (folder : String)
  | opUpload (file : String) (parent : Option String)
  | opDownload (id : String)
  | opNone
deriving Repr, DecidableEq

/-- How many of the three operations an `Op` value acts on. -/
def Op.actedCount : Op → Nat
  | .opNone => 0
  | _ => 1

/-- The dispatch of `main` (`main.py` lines 130–137): the first truthy flag
among list/upload/download wins; with none of them, a message is printed and
the process falls off the end of `main`, exiting with status 0 (the third
component; `main` contains no `sys.exit` call). -/
def mainStep (args : Args) : Op × List String × Nat :=
  if truthy args.list_files then
    (Op.opList (args.list_files.getD "root"), [], 0)
  else if truthy args.upload_file then
    (Op.opUpload (args.upload_file.getD "") args.parent_folder, [], 0)
  else if truthy args.download_file then
    (Op.opDownload (args.download_file.getD ""), [], 0)
  else
    (Op.opNone, ["No valid options provided!"], 0)

/-- Joining path components with the separator used by the wrapper's
`os.path.join` calls. -/
def joinPath : List String → String
  | [] => ""
  | [x] => x
  | x :: xs => x ++ "/" ++ joinPath xs

/-- Following the spec's notion of ancestor chain: the folders from a given
folder up to, and excluding, the root, listed from the given folder upwards
(so the topmost ancestor below the root is last).  The chain is defined when
every visited folder has a first parent reference, each non-root reference
resolves, and it ends exactly at the first reference flagged is-root. -/
def chainBelowRoot (d : Drive) : Nat → Entry → Option (List Entry)
  | 0, _ => none
  | fuel + 1, f =>
    match f.parents.head? with
    | none => none
    | some pr =>
      if pr.isRoot then some [f]
      else
        match d.fetch pr.id with
        | none => none
        | some g => (chainBelowRoot d fuel g).map (fun c => f :: c)

/-- Following the spec's words: the base name of a local path, its last
slash-separated component. -/
def basename (s : String) : String :=
  (pySplitSlash s).getLastD ""

/-- An entry with all parent references beyond the first removed. -/
def truncEntry (e : Entry) : Entry :=
  Entry.mk e.id e.title e.mimeType (e.parents.take 1) e.trashed e.content

/-- A drive with all parent references beyond the first removed from every
entry. -/
def truncDrive (d : Drive) : Drive :=
  Drive.mk (d.entries.map truncEntry)

/-- Example root folder: the service's root entry has an empty parent
list. -/
def exRoot : Entry := Entry.mk "root" "My Drive" FOLDER_MIME_TYPE [] false []

/-- Example folder A directly under the root. -/
def exA : Entry :=
  Entry.mk "A" "A" FOLDER_MIME_TYPE [ParentRef.mk "root" true] false []

/-- Example folder sub inside A. -/
def exSub : Entry :=
  Entry.mk "S" "sub" FOLDER_MIME_TYPE [ParentRef.mk "A" false] false []

/-- Example file inside sub. -/
def exG : Entry :=
  Entry.mk "g" "g.txt" "text/plain" [ParentRef.mk "S" false] false [9]

/-- Example file directly under the root. -/
def exH : Entry :=
  Entry.mk "h" "h.txt" "text/plain" [ParentRef.mk "root" true] false [4]

/-- Example drive for the concrete witnesses. -/
def exDrive : Drive := Drive.mk [exRoot, exA, exSub, exG, exH]

/-- Example folder B directly under the root, second parent of `exF`. -/
def exB : Entry :=
  Entry.mk "B" "B" FOLDER_MIME_TYPE [ParentRef.mk "root" true] false []

/-- Example multi-parented file: its parent references are A then B. -/
def exF : Entry :=
  Entry.mk "f" "f.txt" "text/plain"
    [ParentRef.mk "A" false, ParentRef.mk "B" false] false [7]

/-- Example drive with a multi-parented file. -/
def dC7 : Drive := Drive.mk [exRoot, exA, exB, exF]

/-- Example local filesystem holding one file. -/
def exFS : LocalFS := LocalFS.mk [("docs/notes.txt", [1, 2, 3])]

/-- A fetched entry carries the identifier it was fetched under. -/
theorem Drive.fetch_id {d : Drive} {i : String} {f : Entry}
    (h : d.fetch i = some f) : f.id = i := by
  have h2 := List.find?_some h
  simpa using h2

/-- Unfolding `joinPath` on a list with at least two elements. -/
theorem joinPath_cons (x : String) (l : List String) (h : l ≠ []) :
    joinPath (x :: l) = x ++ "/" ++ joinPath l := by
  cases l with
  | nil => exact absurd rfl h
  | cons y ys => rfl

/-- Appending one component to a non-empty path. -/
theorem joinPath_concat (xs : List String) (y : String) (h : xs ≠ []) :
    joinPath (xs ++ [y]) = joinPath xs ++ "/" ++ y := by
  induction xs with
  | nil => exact absurd rfl h
  | cons x xs ih =>
    cases xs with
    | nil => rfl
    | cons z zs =>
      rw [List.cons_append, joinPath_cons x ((z :: zs) ++ [y]) (by simp),
        joinPath_cons x (z :: zs) (by simp), ih (by simp)]
      simp [String.append_assoc]

/-- A pre-joined final component joins like two separate components. -/
theorem joinPath_join (xs : List String) (a b : String) :
    joinPath (xs ++ [a ++ "/" ++ b]) = joinPath ((xs ++ [a]) ++ [b]) := by
  cases xs with
  | nil => rfl
  | cons x xs =>
    rw [joinPath_concat _ _ (by simp), joinPath_concat _ _ (by simp),
      joinPath_concat _ _ (by simp)]
    simp [String.append_assoc]

/-- An ancestor chain starts at the folder it was computed from. -/
theorem chainBelowRoot_head {d : Drive} {fuel : Nat} {f : Entry} {c : List Entry}
    (h : chainBelowRoot d fuel f = some c) : ∃ c2, c = f :: c2 := by
  cases fuel with
  | zero => simp [chainBelowRoot] at h
  | succ n =>
    unfold chainBelowRoot at h
    cases hp : f.parents.head? with
    | none => rw [hp] at h; simp at h
    | some pr =>
      rw [hp] at h
      cases hr : pr.isRoot with
      | true =>
        simp only [hr, if_true] at h
        exact ⟨[], by simpa using h.symm⟩
      | false =>
        simp only [hr, Bool.false_eq_true, if_false] at h
        cases hg : d.fetch pr.id with
        | none => rw [hg] at h; simp at h
        | some g =>
          rw [hg] at h
          simp only [] at h
          obtain ⟨c2, _, hc⟩ := Option.map_eq_some'.mp h
          exact ⟨c2, hc.symm⟩

/-- The imperative ancestor walk computes the join of the chain's titles
above the starting folder, prepended to the accumulator. -/
theorem walkUp_of_chain (d : Drive) :
    ∀ (fuel : Nat) (f : Entry) (c : List Entry),
      chainBelowRoot d fuel f = some c → ∀ name,
      walkUp d fuel f name =
        some (joinPath ((c.drop 1).reverse.map Entry.title ++ [name])) := by
  intro fuel
  induction fuel with
  | zero => intro f c h; simp [chainBelowRoot] at h
  | succ n ih =>
    intro f c h name
    unfold chainBelowRoot at h
    unfold walkUp
    cases hp : f.parents.head? with
    | none => rw [hp] at h; simp at h
    | some pr =>
      rw [hp] at h
      cases hr : pr.isRoot with
      | true =>
        simp only [hr, if_true] at h
        simp only [hr, if_true]
        obtain rfl : c = [f] := by simpa using h.symm
        simp [joinPath]
      | false =>
        simp only [hr, Bool.false_eq_true, if_false] at h
        simp only [hr, Bool.false_eq_true, if_false]
        cases hg : d.fetch pr.id with
        | none => rw [hg] at h; simp at h
        | some g =>
          rw [hg] at h
          obtain ⟨c2, hc2, rfl⟩ := Option.map_eq_some'.mp h
          obtain ⟨c3, rfl⟩ := chainBelowRoot_head hc2
          show walkUp d n g (g.title ++ "/" ++ name) = _
          rw [ih g (g :: c3) hc2 (g.title ++ "/" ++ name)]
          have hstep : (List.drop 1 (g :: c3)).reverse.map Entry.title ++
              [g.title ++ "/" ++ name] =
              c3.reverse.map Entry.title ++ [g.title ++ "/" ++ name] := by simp
          rw [hstep, joinPath_join]
          simp

/-- The ancestor walk started at a folder with its own title computes the
join of the whole chain's titles, topmost ancestor first. -/
theorem walkUp_join (d : Drive) (fuel : Nat) (f : Entry) (c : List Entry)
    (h : chainBelowRoot d fuel f = some c) :
    walkUp d fuel f f.title = some (joinPath (c.reverse.map Entry.title)) := by
  obtain ⟨c2, rfl⟩ := chainBelowRoot_head h
  have h2 := walkUp_of_chain d fuel f (f :: c2) h f.title
  simpa using h2

/-- Core computation of the Downloader on a non-folder target whose ancestor
chain is defined: success, the two progress lines, and exactly one written
file at the joined ancestor path carrying the entry's bytes. -/
theorem download_file_single (d : Drive) (fuel : Nat) (fid : String)
    (f p0 : Entry) (pr : ParentRef) (c : List Entry)
    (hf : d.fetch fid = some f) (hnf : (f.mimeType == FOLDER_MIME_TYPE) = false)
    (hp : f.parents.head? = some pr) (hp0 : d.fetch pr.id = some p0)
    (hc : chainBelowRoot d fuel p0 = some c) :
    download_file d (fuel + 1) fid =
      some (DlOut.mk
        ["Downloading " ++ joinPath (c.reverse.map Entry.title ++ [f.title]) ++
           " -> " ++ joinPath (c.reverse.map Entry.title ++ [f.title]),
         "Downloaded " ++ joinPath (c.reverse.map Entry.title ++ [f.title]) ++ "!"]
        [(joinPath (c.reverse.map Entry.title ++ [f.title]), f.content)]) := by
  have hid : f.id = fid := Drive.fetch_id hf
  have hw := walkUp_join d fuel p0 c hc
  have hne : c.reverse.map Entry.title ≠ [] := by
    obtain ⟨c2, rfl⟩ := chainBelowRoot_head hc
    simp
  have hcat : joinPath (c.reverse.map Entry.title) ++ "/" ++ f.title
      = joinPath (c.reverse.map Entry.title ++ [f.title]) :=
    (joinPath_concat _ _ hne).symm
  simp only [download_file, hf, hnf, Bool.false_eq_true, if_false]
  simp only [dlLoopG, hid, hf, hnf, Bool.false_eq_true, if_false]
  simp only [dlSingle, hp, hp0, hw]
  rw [hcat]
  simp [dlCombine]

/-- With printing suppressed the Lister prints nothing, whatever the
folder-skipping flag. -/
theorem listPrints_skip (sd : Bool) : ∀ l : List Entry, listPrints true sd l = [] := by
  intro l
  induction l with
  | nil => rfl
  | cons f rest ih =>
    unfold listPrints
    cases h : sd && (f.mimeType == FOLDER_MIME_TYPE) with
    | true => simpa [h] using ih
    | false => simpa [h] using ih

/-- Every line printed by the Lister with folder-skipping enabled comes from
a non-folder entry of the list. -/
theorem listPrints_mem_nonfolder (sp : Bool) :
    ∀ (l : List Entry) (s : String), s ∈ listPrints sp true l →
      ∃ f, f ∈ l ∧ (f.mimeType == FOLDER_MIME_TYPE) = false ∧ s = listLine f := by
  intro l
  induction l with
  | nil => intro s h; simp [listPrints] at h
  | cons f rest ih =>
    intro s h
    unfold listPrints at h
    cases hd : f.mimeType == FOLDER_MIME_TYPE with
    | true =>
      simp only [hd, Bool.true_and, if_true] at h
      obtain ⟨g, hg, h1, h2⟩ := ih s h
      exact ⟨g, List.mem_cons_of_mem f hg, h1, h2⟩
    | false =>
      simp only [hd, Bool.true_and, Bool.false_eq_true, if_false] at h
      cases sp with
      | true =>
        simp only [Bool.not_true, Bool.false_eq_true, if_false] at h
        obtain ⟨g, hg, h1, h2⟩ := ih s h
        exact ⟨g, List.mem_cons_of_mem f hg, h1, h2⟩
      | false =>
        simp only [Bool.not_false, if_true] at h
        rcases List.mem_cons.mp h with h2 | h3
        · exact ⟨f, List.mem_cons_self f rest, hd, h2⟩
        · obtain ⟨g, hg, h1, h2⟩ := ih s h3
          exact ⟨g, List.mem_cons_of_mem f hg, h1, h2⟩

/-- C3: for every parent folder identifier and every combination of the
skip-print and skip-directory flags, the list returned by the Lister is
exactly the full set of non-trashed direct children matched by the remote
query, folder entries included; its length equals the count of non-trashed
direct children, independent of the flags, which only affect printing. -/
theorem c3_lister_returns_full_list (d : Drive) (p : String)
    (sp sd sp2 sd2 : Bool) :
    (list_files d p sp sd).fst = queryChildren d p ∧
    (list_files d p sp sd).fst.length =
      (d.entries.filter (fun e =>
        e.parents.any (fun pr => pr.id == p) && !e.trashed)).length ∧
    (list_files d p sp sd).fst = (list_files d p sp2 sd2).fst :=
  ⟨rfl, rfl, rfl⟩

/-- C4: with folder-skipping enabled, every line the Lister prints comes
from an entry whose MIME type is not the folder sentinel, whatever the value
of the skip-print flag; so no folder entry is ever printed. -/
theorem c4_skip_directory_prints_no_folders (d : Drive) (p : String)
    (sp : Bool) (s : String) (hs : s ∈ (list_files d p sp true).snd) :
    ∃ f, f ∈ (list_files d p sp true).fst ∧ f.mimeType ≠ FOLDER_MIME_TYPE ∧
      s = listLine f := by
  obtain ⟨f, hf, h1, h2⟩ := listPrints_mem_nonfolder sp (queryChildren d p) s hs
  exact ⟨f, hf, fun hEq => by simp [hEq] at h1, h2⟩

/-- Witness for C4 on the example drive: the line for `h.txt` under the root
is printed and indeed stems from a non-folder entry. -/
theorem c4_witness :
    ∃ f, f ∈ (list_files exDrive "root" false true).fst ∧
      f.mimeType ≠ FOLDER_MIME_TYPE ∧ "Title: h.txt\tid: h" = listLine f :=
  c4_skip_directory_prints_no_folders exDrive "root" false
    "Title: h.txt\tid: h" (by decide)

/-- C2: for every local path that does not exist, the Uploader prints the
existence-failure message, performs no remote call (so no remote object is
created and no permission is set), leaves the remote drive unchanged, and
returns normally. -/
theorem c2_upload_missing_local_file (fs : LocalFS) (d : Drive)
    (rootId freshId filename : String) (pf : Option String)
    (h : fs.pathExists filename = false) :
    upload fs d rootId freshId filename pf =
      UpOut.mk d ["Specified filename " ++ filename ++ " does not exist!"] [] := by
  simp [upload, h]

/-- Witness for C2: uploading a missing file on an empty local filesystem
prints the message and performs no remote call. -/
theorem c2_witness :
    upload (LocalFS.mk []) exDrive "root" "new1" "gone.txt" (some "S") =
      UpOut.mk exDrive ["Specified filename gone.txt does not exist!"] [] :=
  c2_upload_missing_local_file (LocalFS.mk []) exDrive "root" "new1"
    "gone.txt" (some "S") rfl

/-- C9: for every parsed command line, at most one of the list, upload and
download operations is acted on, and when none of the three flags is given
the program prints "No valid options provided!" and exits normally with
status 0. -/
theorem c9_dispatch_at_most_one (args : Args) :
    (mainStep args).fst.actedCount ≤ 1 ∧
    (args.list_files = none → args.upload_file = none →
      args.download_file = none →
      mainStep args = (Op.opNone, ["No valid options provided!"], 0)) := by
  constructor
  · cases h : (mainStep args).fst <;> simp [Op.actedCount]
  · intro h1 h2 h3
    simp [mainStep, h1, h2, h3, truthy]

/-- Witness for C9: with no flags at all, the dispatch selects no operation,
prints the message and reports exit status 0. -/
theorem c9_witness :
    (mainStep (Args.mk none none none none)).fst.actedCount ≤ 1 ∧
    mainStep (Args.mk none none none none) =
      (Op.opNone, ["No valid options provided!"], 0) :=
  ⟨(c9_dispatch_at_most_one (Args.mk none none none none)).1,
   (c9_dispatch_at_most_one (Args.mk none none none none)).2 rfl rfl rfl⟩

/-- C1: for every non-folder remote identifier whose first-parent ancestor
chain is defined up to a parent reference flagged is-root, the Downloader
succeeds and produces exactly one local file, at the path joining the titles
of the ancestor folders from the topmost ancestor below the root down to the
immediate parent — the root itself excluded — followed by the entry's own
title. -/
theorem c1_single_file_at_joined_path (d : Drive) (fuel : Nat) (fid : String)
    (f p0 : Entry) (pr : ParentRef) (c : List Entry)
    (hf : d.fetch fid = some f) (hnf : f.mimeType ≠ FOLDER_MIME_TYPE)
    (hp : f.parents.head? = some pr) (hp0 : d.fetch pr.id = some p0)
    (hc : chainBelowRoot d fuel p0 = some c) :
    ∃ o, download_file d (fuel + 1) fid = some o ∧
      o.files = [(joinPath (c.reverse.map Entry.title ++ [f.title]), f.content)] :=
  ⟨_, download_file_single d fuel fid f p0 pr c hf (by simp [hnf]) hp hp0 hc, rfl⟩

/-- Witness for C1 on the example drive: downloading `g.txt`, which lives in
folder sub inside folder A under the root, writes exactly one file at
`A/sub/g.txt`. -/
theorem c1_witness :
    ∃ o, download_file exDrive 3 "g" = some o ∧
      o.files = [("A/sub/g.txt", [9])] :=
  c1_single_file_at_joined_path exDrive 2 "g" exG exSub (ParentRef.mk "S" false)
    [exSub, exA] rfl (by decide) rfl rfl rfl

/-- C10: the ancestor walk of the Downloader reads the head of a parent list
with no emptiness guard; when the downloaded entry's immediate parent has an
empty parent list — the root folder itself — the walk hits the error branch
of the embedded indexing and the whole download aborts, for every fuel
bound. -/
theorem c10_walk_unguarded_at_root (d : Drive) (fuel : Nat) (fid : String)
    (f p0 : Entry) (pr : ParentRef)
    (hf : d.fetch fid = some f) (hnf : f.mimeType ≠ FOLDER_MIME_TYPE)
    (hp : f.parents.head? = some pr) (hp0 : d.fetch pr.id = some p0)
    (hroot : p0.parents = []) :
    download_file d fuel fid = none := by
  cases fuel with
  | zero => rfl
  | succ n =>
    have hid : f.id = fid := Drive.fetch_id hf
    have hnfb : (f.mimeType == FOLDER_MIME_TYPE) = false := by simp [hnf]
    simp only [download_file, hf, hnfb, Bool.false_eq_true, if_false]
    simp only [dlLoopG, hid, hf, hnfb, Bool.false_eq_true, if_false]
    simp only [dlSingle, hp, hp0]
    cases n with
    | zero => rfl
    | succ m => simp [walkUp, hroot]

/-- Witness for C10: `h.txt` lives directly under the root, whose parent
list is empty, so its download aborts. -/
theorem c10_witness : download_file exDrive 5 "h" = none :=
  c10_walk_unguarded_at_root exDrive 5 "h" exH exRoot (ParentRef.mk "root" true)
    rfl (by decide) rfl rfl rfl

/-- Unfolding of the Downloader at positive fuel: its loop body is exactly
`dlStep`. -/
theorem download_file_succ (d : Drive) (fuel : Nat) (fid : String) :
    download_file d (fuel + 1) fid =
      match d.fetch fid with
      | none => none
      | some file =>
        if file.mimeType == FOLDER_MIME_TYPE then
          match dlLoopG (dlStep d fuel) (list_files d fid true false).fst with
          | none => none
          | some o =>
            some (DlOut.mk
              ((file.title ++ " is a folder, downloading recursively") :: o.prints)
              o.files)
        else dlLoopG (dlStep d fuel) [file] := rfl

/-- C5: on a folder identifier the Downloader prints the recursion notice
and loops over the children obtained from the Lister called with
folder-skipping disabled and printing suppressed (which therefore prints
nothing); each loop iteration recurses into the Downloader when its
re-fetched entry is a folder; and on a non-folder identifier the Downloader
loops over the single-element list holding that entry. -/
theorem c5_folder_recursion_structure (d : Drive) (fuel : Nat) (fid : String)
    (f : Entry) (hf : d.fetch fid = some f) :
    (f.mimeType = FOLDER_MIME_TYPE →
      download_file d (fuel + 1) fid =
        Option.map
          (fun o => DlOut.mk
            ((f.title ++ " is a folder, downloading recursively") :: o.prints)
            o.files)
          (dlLoopG (dlStep d fuel) (list_files d fid true false).fst) ∧
      (list_files d fid true false).snd = []) ∧
    (∀ e e2, d.fetch e.id = some e2 → e2.mimeType = FOLDER_MIME_TYPE →
      dlStep d fuel e = download_file d fuel e2.id) ∧
    (f.mimeType ≠ FOLDER_MIME_TYPE →
      download_file d (fuel + 1) fid = dlLoopG (dlStep d fuel) [f]) := by
  refine ⟨fun hfol => ⟨?_, listPrints_skip false _⟩, ?_, fun hnf => ?_⟩
  · have hb : (f.mimeType == FOLDER_MIME_TYPE) = true := by simp [hfol]
    rw [download_file_succ, hf]
    simp only [hb, if_true]
    cases hlo : dlLoopG (dlStep d fuel) (list_files d fid true false).fst with
    | none => simp
    | some o => simp
  · intro e e2 he hm
    have hb2 : (e2.mimeType == FOLDER_MIME_TYPE) = true := by simp [hm]
    simp only [dlStep, he, hb2, if_true]
  · have hb : (f.mimeType == FOLDER_MIME_TYPE) = false := by simp [hnf]
    rw [download_file_succ, hf]
    simp only [hb, Bool.false_eq_true, if_false]

/-- Witness for C5 on the example drive: downloading folder A prepends the
recursion notice to the loop's output over the print-suppressed,
unfiltered child listing, that listing prints nothing, and the loop body on
the child folder sub is the recursive download of sub. -/
theorem c5_witness :
    download_file exDrive 4 "A" =
      Option.map
        (fun o => DlOut.mk
          (("A" ++ " is a folder, downloading recursively") :: o.prints)
          o.files)
        (dlLoopG (dlStep exDrive 3) (list_files exDrive "A" true false).fst) ∧
    (list_files exDrive "A" true false).snd = [] ∧
    dlStep exDrive 3 exSub = download_file exDrive 3 "S" :=
  ⟨((c5_folder_recursion_structure exDrive 3 "A" exA rfl).1 rfl).1,
   ((c5_folder_recursion_structure exDrive 3 "A" exA rfl).1 rfl).2,
   (c5_folder_recursion_structure exDrive 3 "A" exA rfl).2.1 exSub exSub rfl rfl⟩

/-- Truncating parent references keeps the identifier. -/
theorem truncEntry_id (e : Entry) : (truncEntry e).id = e.id := rfl

/-- Truncating parent references keeps the title. -/
theorem truncEntry_title (e : Entry) : (truncEntry e).title = e.title := rfl

/-- Truncating parent references keeps the MIME type. -/
theorem truncEntry_mimeType (e : Entry) :
    (truncEntry e).mimeType = e.mimeType := rfl

/-- Truncating parent references keeps the content. -/
theorem truncEntry_content (e : Entry) :
    (truncEntry e).content = e.content := rfl

/-- Truncating parent references keeps the first parent reference. -/
theorem truncEntry_head (e : Entry) :
    (truncEntry e).parents.head? = e.parents.head? := by
  show (e.parents.take 1).head? = e.parents.head?
  cases e.parents <;> rfl

/-- Fetching from the truncated drive fetches the truncated entry. -/
theorem fetch_trunc (d : Drive) (i : String) :
    (truncDrive d).fetch i = (d.fetch i).map truncEntry := by
  show (d.entries.map truncEntry).find? (fun e => e.id == i) = _
  rw [List.find?_map]
  rfl

/-- The ancestor walk only ever reads first parent references, so it is
unchanged by dropping the others everywhere. -/
theorem walkUp_trunc (d : Drive) :
    ∀ (fuel : Nat) (f : Entry) (name : String),
      walkUp (truncDrive d) fuel (truncEntry f) name = walkUp d fuel f name := by
  intro fuel
  induction fuel with
  | zero => intro f name; rfl
  | succ n ih =>
    intro f name
    unfold walkUp
    rw [truncEntry_head]
    cases hp : f.parents.head? with
    | none => rfl
    | some pr =>
      cases hr : pr.isRoot with
      | true => simp [hr]
      | false =>
        simp only [hr, Bool.false_eq_true, if_false]
        rw [fetch_trunc]
        cases hg : d.fetch pr.id with
        | none => rfl
        | some g =>
          simp only [Option.map_some']
          show walkUp (truncDrive d) n (truncEntry g)
            ((truncEntry g).title ++ "/" ++ name) = _
          rw [truncEntry_title]
          exact ih g (g.title ++ "/" ++ name)

/-- The per-file download only ever reads first parent references, so it is
unchanged by dropping the others everywhere. -/
theorem dlSingle_trunc (d : Drive) (fuel : Nat) (e : Entry) :
    dlSingle (truncDrive d) fuel (truncEntry e) = dlSingle d fuel e := by
  unfold dlSingle
  rw [truncEntry_head]
  cases hp : e.parents.head? with
  | none => rfl
  | some pr =>
    simp only [fetch_trunc]
    cases hg : d.fetch pr.id with
    | none => rfl
    | some folder =>
      simp only [Option.map_some', truncEntry_title, truncEntry_content,
        walkUp_trunc]

/-- C7 in its amended form: on a non-folder identifier the Downloader —
path computation and written files alike — depends only on the first parent
reference of every entry involved, so truncating all parent lists to their
first element changes nothing. -/
theorem c7_first_parent_only_nonfolder (d : Drive) (fuel : Nat) (fid : String)
    (f : Entry) (hf : d.fetch fid = some f)
    (hnf : f.mimeType ≠ FOLDER_MIME_TYPE) :
    download_file (truncDrive d) fuel fid = download_file d fuel fid := by
  cases fuel with
  | zero => rfl
  | succ n =>
    have hid : f.id = fid := Drive.fetch_id hf
    have hnfb : (f.mimeType == FOLDER_MIME_TYPE) = false := by simp [hnf]
    have hft : (truncDrive d).fetch fid = some (truncEntry f) := by
      rw [fetch_trunc, hf]; rfl
    rw [download_file_succ, download_file_succ, hf, hft]
    simp only [truncEntry_mimeType, hnfb, Bool.false_eq_true, if_false]
    simp only [dlLoopG, dlStep, truncEntry_id, hid, hft, hf,
      truncEntry_mimeType, hnfb, Bool.false_eq_true, if_false, dlSingle_trunc]

/-- Witness for the amended C7: the direct download of the multi-parented
`f.txt` is unchanged when every parent list is cut to its first reference,
and it writes the file under its first parent A. -/
theorem c7_witness :
    download_file (truncDrive dC7) 4 "f" = download_file dC7 4 "f" ∧
    (download_file dC7 4 "f").map DlOut.files = some [("A/f.txt", [7])] :=
  ⟨c7_first_parent_only_nonfolder dC7 4 "f" exF rfl (by decide), rfl⟩

/-- C7 as stated is false: further parent references do affect which files
are downloaded.  Downloading folder B in the example drive downloads
`f.txt` — it is listed as a child of B through its second parent reference —
while the same download after truncating every parent list to its first
element downloads nothing. -/
theorem c7_counterexample :
    (download_file dC7 5 "B").map DlOut.files = some [("A/f.txt", [7])] ∧
    (download_file (truncDrive dC7) 5 "B").map DlOut.files = some [] ∧
    download_file (truncDrive dC7) 5 "B" ≠ download_file dC7 5 "B" :=
  ⟨rfl, rfl, by decide⟩

/-- Fetching the identifier of the entry just prepended to a drive finds
that entry. -/
theorem fetch_cons_self (e : Entry) (l : List Entry) (i : String)
    (h : e.id = i) : (Drive.mk (e :: l)).fetch i = some e := by
  unfold Drive.fetch
  exact List.find?_cons_of_pos _ (by simp [h])

/-- C6 in its amended form: uploading an existing local file under a
non-empty parent folder identifier whose ancestor chain is defined up to an
is-root reference, then downloading the server-assigned identifier,
reproduces the file's bytes unchanged at the computed local path — the
joined ancestor titles followed by the file's base name. -/
theorem c6_roundtrip_nonroot_parent (fs : LocalFS) (d : Drive)
    (rootId freshId filename p : String) (P : Entry) (c : List Entry)
    (fuel : Nat)
    (hex : fs.pathExists filename = true) (hpne : p ≠ "")
    (hP : (upload fs d rootId freshId filename (some p)).drive.fetch p = some P)
    (hc : chainBelowRoot (upload fs d rootId freshId filename (some p)).drive
      fuel P = some c) :
    Option.map DlOut.files
      (download_file (upload fs d rootId freshId filename (some p)).drive
        (fuel + 1) freshId) =
      some [(joinPath (c.reverse.map Entry.title ++ [basename filename]),
        fs.read filename)] := by
  have htr : truthy (some p) = true := by simp [truthy, hpne]
  have hd2 : (upload fs d rootId freshId filename (some p)).drive =
      serverUpload d rootId freshId (basename filename)
        [ParentLink.mk "drive#fileLink" p] (fs.read filename) := by
    simp [upload, hex, uploadFileParams, htr, basename]
  rw [hd2] at hP hc ⊢
  have hf0 : (serverUpload d rootId freshId (basename filename)
      [ParentLink.mk "drive#fileLink" p] (fs.read filename)).fetch freshId =
      some (Entry.mk freshId (basename filename) "application/octet-stream"
        [ParentRef.mk p (p == rootId)] false (fs.read filename)) :=
    fetch_cons_self _ _ _ rfl
  have hnf0 : ("application/octet-stream" == FOLDER_MIME_TYPE) = false := by
    decide
  have h1 := download_file_single
    (serverUpload d rootId freshId (basename filename)
      [ParentLink.mk "drive#fileLink" p] (fs.read filename))
    fuel freshId
    (Entry.mk freshId (basename filename) "application/octet-stream"
      [ParentRef.mk p (p == rootId)] false (fs.read filename))
    P (ParentRef.mk p (p == rootId)) c hf0 hnf0 rfl hP hc
  rw [h1]
  rfl

/-- Witness for the amended C6: uploading `docs/notes.txt` under folder sub
and downloading the assigned identifier writes `[1, 2, 3]` at
`A/sub/notes.txt`. -/
theorem c6_witness :
    Option.map DlOut.files
      (download_file
        (upload exFS exDrive "root" "new1" "docs/notes.txt" (some "S")).drive
        3 "new1") =
      some [("A/sub/notes.txt", [1, 2, 3])] :=
  c6_roundtrip_nonroot_parent exFS exDrive "root" "new1" "docs/notes.txt" "S"
    exSub [exSub, exA] 2 rfl (by decide) rfl rfl

/-- C6 as stated is false: an upload that supplies no parent folder files
the new entry directly under the root, and downloading the assigned
identifier then aborts on the root's empty parent list instead of
reproducing the content anywhere. -/
theorem c6_counterexample :
    download_file
      (upload (LocalFS.mk [("notes.txt", [1, 2, 3])]) exDrive "root" "new1"
        "notes.txt" none).drive 10 "new1" = none := rfl

/-- C8: the record built by the Uploader for an upload carries the local
file's base name as title; a non-empty supplied parent folder identifier
yields exactly one parent link of kind "drive#fileLink" with that
identifier; an absent — or empty, by Python truthiness — identifier yields
no parent link. -/
theorem c8_record_title_and_parent (filename : String) (pf : Option String) :
    (uploadFileParams filename pf).fst = basename filename ∧
    (∀ p, pf = some p → p ≠ "" →
      (uploadFileParams filename pf).snd = [ParentLink.mk "drive#fileLink" p]) ∧
    (pf = none → (uploadFileParams filename pf).snd = []) ∧
    (pf = some "" → (uploadFileParams filename pf).snd = []) := by
  refine ⟨rfl, ?_, ?_, ?_⟩
  · intro p hpf hne
    subst hpf
    have htr : truthy (some p) = true := by simp [truthy, hne]
    simp [uploadFileParams, htr]
  · intro hpf; subst hpf; rfl
  · intro hpf; subst hpf; rfl

/-- Witness for C8: uploading `a/b.txt` under folder1 titles the record
`b.txt` with the single folder1 link, and with no parent identifier the
record has no parent link. -/
theorem c8_witness :
    (uploadFileParams "a/b.txt" (some "folder1")).fst = "b.txt" ∧
    (uploadFileParams "a/b.txt" (some "folder1")).snd =
      [ParentLink.mk "drive#fileLink" "folder1"] ∧
    (uploadFileParams "a/b.txt" none).snd = [] :=
  ⟨(c8_record_title_and_parent "a/b.txt" (some "folder1")).1,
   (c8_record_title_and_parent "a/b.txt" (some "folder1")).2.1 "folder1" rfl
     (by decide),
   (c8_record_title_and_parent "a/b.txt" none).2.2.1 rfl⟩

/-- C8 as stated is false at the empty-string identifier: Python truthiness
treats a supplied empty parent folder identifier like an absent one, so the
record gets no parent link rather than one naming the supplied
identifier. -/
theorem c8_counterexample :
    (uploadFileParams "a/b.txt" (some "")).snd = [] ∧
    (uploadFileParams "a/b.txt" (some "")).snd ≠
      [ParentLink.mk "drive#fileLink" ""] :=
  ⟨rfl, by decide⟩
